import Mathlib

/-!
Verification of the streaming chat-completion use case
(chatservice/internal/usecase/chatcompletionstream/completion.go).

The use case file is embedded directly: the DTO types, the Execute
control flow (load-or-create, append user message, build provider
request, consume the delta stream while publishing cumulative
snapshots, finalize and save) and createNewChat.  The domain entities
(Model, Message, Chat, ChatConfig) and the gateway live outside the
embedded file and are modelled from the specification, as noted on
each of their definitions.  External effects (gateway results, the
tokenizer, the provider stream, generated identifiers) are an explicit
environment; the calls Execute makes to the gateway, the provider and
the output channel are recorded in a trace.
-/

/-- Modelled from the spec: a provider model, identified by name with a
maximum context-token budget (entity.Model, not under the embedded
sources). -/
structure Model where
  Name : String
  MaxTokens : Nat
deriving Repr, DecidableEq

/-- Modelled from the spec: one conversation turn with a role, text
content and a token count computed at creation time (entity.Message,
not under the embedded sources; identifier and timestamp are not
needed by any property here). -/
structure Message where
  Role : String
  Content : String
  Tokens : Nat
deriving Repr, DecidableEq

/-- Modelled from the spec: generation parameters bound to a chat
(entity.ChatConfig, not under the embedded sources).  Scalar
generation parameters that Go stores as float32 are carried as
rationals: the use case only copies them, never computes with them. -/
structure ChatConfig where
  Temperature : ℚ
  TopP : ℚ
  N : Int
  Stop : List String
  MaxTokens : Int
  PresencePenalty : ℚ
  FrequencyPenalty : ℚ
  Model : Model
deriving Repr, DecidableEq

/-- Modelled from the spec: the conversation aggregate root
(entity.Chat, not under the embedded sources): identifier, owning
user, bound config, ordered message sequence. -/
structure Chat where
  ID : String
  UserID : String
  Config : ChatConfig
  Messages : List Message
deriving Repr, DecidableEq

/-- Modelled from the spec: NewModel is a pure constructor with no
failure mode. -/
def NewModel (name : String) (maxTokens : Nat) : Model :=
  { Name := name, MaxTokens := maxTokens }

/-- Modelled from the spec: NewMessage computes the token count of the
content under the model's tokenizer and fails when the content cannot
be tokenized.  The tokenizer itself is an external effect, passed in
as a function from model and content to an optional token count. -/
def NewMessage (count : Model → String → Option Nat) (role content : String)
    (model : Model) : Except String Message :=
  match count model content with
  | none => Except.error ("TokenizationError")
  | some t => Except.ok { Role := role, Content := content, Tokens := t }

/-- Total of the per-message token counts of a chat. -/
def Chat.TotalTokens (c : Chat) : Nat :=
  (c.Messages.map Message.Tokens).sum

/-- Modelled from the spec: NewChat fails with a validation error when
the initial message is not role system or the config's model name is
empty; otherwise the chat starts with exactly the initial message.
The generated chat identifier is an external effect and is passed in
explicitly. -/
def NewChat (userID : String) (initialMessage : Message) (config : ChatConfig)
    (freshID : String) : Except String Chat :=
  if initialMessage.Role = "system" ∧ config.Model.Name ≠ "" then
    Except.ok { ID := freshID, UserID := userID, Config := config,
                Messages := [initialMessage] }
  else
    Except.error ("ValidationError")

/-- Modelled from the spec: AddMessage appends the message and fails
with a budget error when the resulting total token count would exceed
the bound model's max-token budget. -/
def Chat.AddMessage (c : Chat) (m : Message) : Except String Chat :=
  if c.TotalTokens + m.Tokens ≤ c.Config.Model.MaxTokens then
    Except.ok { c with Messages := c.Messages ++ [m] }
  else
    Except.error ("BudgetExceededError")

/-- Config DTO of the use case (ChatCompletionConfigInputDTO). -/
structure ChatCompletionConfigInputDTO where
  Model : String
  ModelMaxTokens : Nat
  Temperature : ℚ
  TopP : ℚ
  N : Int
  Stop : List String
  MaxTokens : Int
  PresencePenalty : ℚ
  FrequencyPenalty : ℚ
  InitialSystemMessage : String
deriving Repr, DecidableEq

/-- Input DTO of the use case (ChatCompletionInputDTO). -/
structure ChatCompletionInputDTO where
  ChatID : String
  UserID : String
  UserMessage : String
  Config : ChatCompletionConfigInputDTO
deriving Repr, DecidableEq

/-- Output DTO, both the streamed snapshot item and the final result
(ChatCompletionOutputDTO). -/
structure ChatCompletionOutputDTO where
  ChatID : String
  UserID : String
  Content : String
deriving Repr, DecidableEq

/-- One message of the provider request (openai.ChatCompletionMessage,
restricted to the two fields the use case sets). -/
structure ProviderMessage where
  Role : String
  Content : String
deriving Repr, DecidableEq

/-- The provider request the use case builds
(openai.ChatCompletionRequest, restricted to the fields relevant to
the embedded literal; fields the literal does not set keep the Go zero
value). -/
structure ProviderRequest where
  Model : String
  Messages : List ProviderMessage
  MaxTokens : Int
  Temperature : ℚ
  TopP : ℚ
  N : Int
  PresencePenalty : ℚ
  FrequencyPenalty : ℚ
  Stop : List String
  Stream : Bool
deriving Repr, DecidableEq

/-- Kind of a store error.  Modelled from the spec: FindChatByID fails
with a distinguished NotFoundError when no record exists; any other
failure is an opaque store error.  The use case itself can only
observe the error's text. -/
inductive StoreErrKind where
  | notFound : StoreErrKind
  | store : StoreErrKind
deriving Repr, DecidableEq

/-- A store error: its structured kind together with the text that the
Go error's Error() method yields. -/
structure StoreErr where
  Kind : StoreErrKind
  Text : String
deriving Repr, DecidableEq

/-- One receive from the provider stream: either a delta carrying a
fragment of assistant text, or a mid-stream error.  End of stream is
the end of the event list. -/
inductive StreamEvent where
  | delta : String → StreamEvent
  | errEvent : String → StreamEvent
deriving Repr, DecidableEq

/-- Modelled from the spec: the external collaborators of one Execute
call, fixed up front — the store's answer to FindChatById, the error
outcomes of CreateChat, SaveChat and the stream open, the tokenizer,
the identifier generated for a newly created chat, and the sequence of
provider stream events. -/
structure Env where
  FindChatById : String → Except StoreErr Chat
  CreateChatErr : Option String
  SaveChatErr : Option String
  CountTokens : Model → String → Option Nat
  NewChatID : String
  OpenStreamErr : Option String
  StreamEvents : List StreamEvent

/-- The observable calls one Execute run makes: chats passed to
CreateChat, requests passed to the provider, snapshots published to
the stream channel, chats passed to SaveChat — each in call order. -/
structure Trace where
  Created : List Chat
  Requests : List ProviderRequest
  Sunk : List ChatCompletionOutputDTO
  Saved : List Chat
deriving Repr, DecidableEq

/-- The empty trace. -/
def emptyTrace : Trace :=
  { Created := [], Requests := [], Sunk := [], Saved := [] }

/-- createNewChat (completion.go lines 143-163): build the model and
config from the input DTO, create the system message from the initial
system prompt, then construct the chat.  The Go composite literal for
the config omits MaxTokens, so it holds Go's zero value 0. -/
def createNewChat (env : Env) (input : ChatCompletionInputDTO) : Except String Chat :=
  let model := NewModel input.Config.Model input.Config.ModelMaxTokens
  let chatConfig : ChatConfig :=
    { Temperature := input.Config.Temperature
      TopP := input.Config.TopP
      N := input.Config.N
      Stop := input.Config.Stop
      MaxTokens := 0
      PresencePenalty := input.Config.PresencePenalty
      FrequencyPenalty := input.Config.FrequencyPenalty
      Model := model }
  match NewMessage env.CountTokens ("system") input.Config.InitialSystemMessage model with
  | Except.error m => Except.error ("error create intial message: " ++ m)
  | Except.ok initialMessage =>
    match NewChat input.UserID initialMessage chatConfig env.NewChatID with
    | Except.error m => Except.error ("error create new message: " ++ m)
    | Except.ok chat => Except.ok chat

/-- Load-or-create phase of Execute (completion.go lines 56-72): fetch
the chat; when the fetch fails with an error whose text equals the
literal string compared in the source, create and persist a new chat;
on any other fetch error abort.  The second component records the
CreateChat calls made. -/
def loadOrCreate (env : Env) (input : ChatCompletionInputDTO) :
    Except String Chat × List Chat :=
  match env.FindChatById input.ChatID with
  | Except.ok chat => (Except.ok chat, [])
  | Except.error e =>
    if e.Text = "Chat not found" then
      match createNewChat env input with
      | Except.error m => (Except.error ("error creating new chat: " ++ m), [])
      | Except.ok chat =>
        match env.CreateChatErr with
        | some m => (Except.error ("error persisting new chat: " ++ m), [chat])
        | none => (Except.ok chat, [chat])
    else
      (Except.error ("error fetching existing chat " ++ e.Text), [])

/-- Request construction of Execute (completion.go lines 81-100): the
chat's full message sequence projected to role and content, plus the
generation parameters read from the chat config.  N is not set in the
source literal, so it holds Go's zero value 0. -/
def buildRequest (c : Chat) : ProviderRequest :=
  { Model := c.Config.Model.Name
    Messages := c.Messages.map (fun msg => { Role := msg.Role, Content := msg.Content })
    MaxTokens := c.Config.MaxTokens
    Temperature := c.Config.Temperature
    TopP := c.Config.TopP
    N := 0
    PresencePenalty := c.Config.PresencePenalty
    FrequencyPenalty := c.Config.FrequencyPenalty
    Stop := c.Config.Stop
    Stream := true }

/-- Streaming loop of Execute (completion.go lines 106-123): receive
events until end of stream; on a delta, extend the accumulated content
and publish a snapshot carrying the cumulative content; on a
mid-stream error, stop with the wrapped error.  Returns the published
snapshots in order and either the full accumulated content or the
error. -/
def runStream (cid uid : String) : List StreamEvent → String →
    List ChatCompletionOutputDTO × Except String String
  | [], acc => ([], Except.ok acc)
  | StreamEvent.delta s :: rest, acc =>
    let p := runStream cid uid rest (acc ++ s)
    ({ ChatID := cid, UserID := uid, Content := acc ++ s } :: p.1, p.2)
  | StreamEvent.errEvent m :: _, _ =>
    ([], Except.error ("Error stream response: " ++ m))

/-- Finalize phase of Execute (completion.go lines 124-141): build the
assistant message from the full accumulated content, append it, save
the chat, return the output DTO.  The second component records the
SaveChat calls made. -/
def finalize (env : Env) (c : Chat) (full : String) :
    Except String ChatCompletionOutputDTO × List Chat :=
  match NewMessage env.CountTokens ("assistant") full c.Config.Model with
  | Except.error m => (Except.error ("Error creating assistant message: " ++ m), [])
  | Except.ok assistant =>
    match c.AddMessage assistant with
    | Except.error m => (Except.error ("Error adding new message: " ++ m), [])
    | Except.ok chat3 =>
      match env.SaveChatErr with
      | some m => (Except.error ("Error saving chat: " ++ m), [chat3])
      | none =>
        (Except.ok { ChatID := chat3.ID, UserID := chat3.UserID, Content := full }, [chat3])

/-- Phase of Execute after the chat is in hand (completion.go lines
73-141): build and append the user message, build the request, open
the stream, run the streaming loop, finalize.  The trace records the
request, the published snapshots and the SaveChat calls; the Created
component is filled in by Execute. -/
def afterLoad (env : Env) (input : ChatCompletionInputDTO) (chat : Chat) :
    Except String ChatCompletionOutputDTO × Trace :=
  match NewMessage env.CountTokens ("user") input.UserMessage chat.Config.Model with
  | Except.error m => (Except.error ("error creating user message: " ++ m), emptyTrace)
  | Except.ok userMessage =>
    match chat.AddMessage userMessage with
    | Except.error m => (Except.error ("error adding new message: " ++ m), emptyTrace)
    | Except.ok chat2 =>
      let req := buildRequest chat2
      match env.OpenStreamErr with
      | some m =>
        (Except.error ("Error create chat completion: " ++ m),
         { emptyTrace with Requests := [req] })
      | none =>
        let pr := runStream chat2.ID chat2.UserID env.StreamEvents ("")
        match pr.2 with
        | Except.error m =>
          (Except.error m, { emptyTrace with Requests := [req], Sunk := pr.1 })
        | Except.ok full =>
          let fin := finalize env chat2 full
          (fin.1, { emptyTrace with Requests := [req], Sunk := pr.1, Saved := fin.2 })

/-- Execute (completion.go lines 55-141): the whole turn, returning
the result the caller sees and the trace of external calls made. -/
def Execute (env : Env) (input : ChatCompletionInputDTO) :
    Except String ChatCompletionOutputDTO × Trace :=
  match loadOrCreate env input with
  | (Except.error m, cr) => (Except.error m, { emptyTrace with Created := cr })
  | (Except.ok chat, cr) =>
    let r := afterLoad env input chat
    (r.1, { r.2 with Created := cr })

/-- Concatenation of a list of delta texts in arrival order. -/
def concatStrings : List String → String
  | [] => ""
  | s :: rest => s ++ concatStrings rest

/-- The snapshot sequence the specification prescribes for a delta
sequence: one snapshot per delta, the i-th carrying the concatenation
of the first i+1 delta texts. -/
def specSnapshots (cid uid : String) (texts : List String) :
    List ChatCompletionOutputDTO :=
  (List.range texts.length).map
    (fun i => { ChatID := cid, UserID := uid,
                Content := concatStrings (texts.take (i + 1)) })

/-- The store contents after replaying a trace's writes over an
initial store, treating CreateChat and SaveChat as upserts keyed by
chat identifier, later writes winning. -/
def applyWrites (store : String → Option Chat) (t : Trace) :
    String → Option Chat :=
  fun id =>
    match (t.Created ++ t.Saved).reverse.find? (fun c => c.ID == id) with
    | some c => some c
    | none => store id

/-- The store with no chats. -/
def emptyStore : String → Option Chat :=
  fun _ => none

/-- Snapshot list produced by the streaming loop for an all-delta
prefix, threading the accumulated content. -/
def prefixSnapshots (cid uid acc : String) : List String → List ChatCompletionOutputDTO
  | [] => []
  | t :: ts =>
    { ChatID := cid, UserID := uid, Content := acc ++ t } :: prefixSnapshots cid uid (acc ++ t) ts

/-- The streaming loop on an all-delta event list publishes the prefix
snapshots and accumulates the concatenation of all delta texts. -/
theorem runStream_deltas (cid uid : String) (texts : List String) (acc : String) :
    runStream cid uid (texts.map StreamEvent.delta) acc =
      (prefixSnapshots cid uid acc texts, Except.ok (acc ++ concatStrings texts)) := by
  induction texts generalizing acc with
  | nil => simp [runStream, prefixSnapshots, concatStrings]
  | cons t ts ih =>
    simp [runStream, prefixSnapshots, concatStrings, ih, String.append_assoc]

/-- The streaming loop on delta events followed by a mid-stream error
publishes exactly the snapshots of the deltas before the error and
stops with the wrapped stream error. -/
theorem runStream_midErr (cid uid m : String) (texts : List String)
    (rest : List StreamEvent) (acc : String) :
    runStream cid uid (texts.map StreamEvent.delta ++ StreamEvent.errEvent m :: rest) acc =
      (prefixSnapshots cid uid acc texts,
       Except.error ("Error stream response: " ++ m)) := by
  induction texts generalizing acc with
  | nil => simp [runStream, prefixSnapshots]
  | cons t ts ih =>
    simp [runStream, prefixSnapshots, ih]

/-- Closed form of the prefix snapshots: the i-th snapshot carries the
accumulator followed by the concatenation of the first i+1 texts. -/
theorem prefixSnapshots_eq_rangeMap (cid uid acc : String) (texts : List String) :
    prefixSnapshots cid uid acc texts =
      (List.range texts.length).map
        (fun i => { ChatID := cid, UserID := uid,
                    Content := acc ++ concatStrings (texts.take (i + 1)) }) := by
  induction texts generalizing acc with
  | nil => simp [prefixSnapshots]
  | cons t ts ih =>
    rw [prefixSnapshots, ih, List.length_cons, List.range_succ_eq_map, List.map_cons,
      List.map_map]
    refine List.cons_eq_cons.mpr ⟨?_, ?_⟩
    · simp [concatStrings, String.append_empty]
    · refine List.map_congr_left ?_
      intro i _
      simp [Function.comp, List.take_succ_cons, concatStrings, String.append_assoc]

/-- Prefix snapshots starting from the empty accumulator are exactly
the specification's snapshot sequence. -/
theorem prefixSnapshots_empty_eq_spec (cid uid : String) (texts : List String) :
    prefixSnapshots cid uid ("") texts = specSnapshots cid uid texts := by
  rw [prefixSnapshots_eq_rangeMap, specSnapshots]
  refine List.map_congr_left ?_
  intro i _
  simp [String.empty_append]

/-- One prefix snapshot per delta. -/
theorem prefixSnapshots_length (cid uid acc : String) (texts : List String) :
    (prefixSnapshots cid uid acc texts).length = texts.length := by
  induction texts generalizing acc with
  | nil => rfl
  | cons t ts ih => simp [prefixSnapshots, ih]

/-- A successful AddMessage appends the message at the end and changes
nothing else. -/
theorem AddMessage_ok_eq (c : Chat) (m : Message) (c2 : Chat)
    (h : c.AddMessage m = Except.ok c2) :
    c2 = { c with Messages := c.Messages ++ [m] } := by
  unfold Chat.AddMessage at h
  split at h
  · injection h with h
    exact h.symm
  · exact Except.noConfusion h

/-- Reduction of Execute when the chat is found. -/
theorem Execute_found (env : Env) (input : ChatCompletionInputDTO) (chat : Chat)
    (hfind : env.FindChatById input.ChatID = Except.ok chat) :
    Execute env input =
      ((afterLoad env input chat).1,
       { (afterLoad env input chat).2 with Created := [] }) := by
  unfold Execute loadOrCreate
  rw [hfind]

/-- Reduction of the after-load phase when the user message tokenizes,
fits the budget and the stream opens. -/
theorem afterLoad_stream (env : Env) (input : ChatCompletionInputDTO) (chat : Chat)
    (tu : Nat)
    (htok : env.CountTokens chat.Config.Model input.UserMessage = some tu)
    (hbud : chat.TotalTokens + tu ≤ chat.Config.Model.MaxTokens)
    (hopen : env.OpenStreamErr = none) :
    afterLoad env input chat =
      (let chat2 : Chat :=
        { chat with Messages :=
            chat.Messages ++ [{ Role := "user", Content := input.UserMessage, Tokens := tu }] }
       let pr := runStream chat.ID chat.UserID env.StreamEvents ("")
       match pr.2 with
       | Except.error m =>
         (Except.error m,
          { emptyTrace with Requests := [buildRequest chat2], Sunk := pr.1 })
       | Except.ok full =>
         let fin := finalize env chat2 full
         (fin.1,
          { emptyTrace with
              Requests := [buildRequest chat2]
              Sunk := pr.1
              Saved := fin.2 })) := by
  have h2 : chat.AddMessage { Role := "user", Content := input.UserMessage, Tokens := tu } =
      Except.ok ({ chat with Messages :=
        chat.Messages ++ [{ Role := "user", Content := input.UserMessage, Tokens := tu }] }) := by
    unfold Chat.AddMessage
    rw [if_pos hbud]
  unfold afterLoad NewMessage
  rw [htok]
  simp only [h2, hopen]

/-- C1: for every sequence of N deltas successfully received during
streaming, Execute publishes exactly N snapshots to the sink, in
delta-arrival order, the i-th snapshot's content being the
concatenation of the first i+1 delta texts, so consumers observe a
monotonically growing content prefix. -/
theorem C1_stream_snapshot_prefixes
    (env : Env) (input : ChatCompletionInputDTO) (chat : Chat) (tu : Nat)
    (texts : List String)
    (hfind : env.FindChatById input.ChatID = Except.ok chat)
    (htok : env.CountTokens chat.Config.Model input.UserMessage = some tu)
    (hbud : chat.TotalTokens + tu ≤ chat.Config.Model.MaxTokens)
    (hopen : env.OpenStreamErr = none)
    (hstream : env.StreamEvents = texts.map StreamEvent.delta) :
    (Execute env input).2.Sunk = specSnapshots chat.ID chat.UserID texts := by
  rw [Execute_found env input chat hfind,
    afterLoad_stream env input chat tu htok hbud hopen, hstream,
    runStream_deltas]
  simp [prefixSnapshots_empty_eq_spec]

/-- Concrete input configuration used by witnesses. -/
def cfgW : ChatCompletionConfigInputDTO :=
  { Model := "gpt-4", ModelMaxTokens := 100, Temperature := 1, TopP := 1, N := 1,
    Stop := [], MaxTokens := 10, PresencePenalty := 0, FrequencyPenalty := 0,
    InitialSystemMessage := "You are a helpful assistant" }

/-- Concrete existing chat used by witnesses. -/
def chatW : Chat :=
  { ID := "c1", UserID := "u1",
    Config := { Temperature := 1, TopP := 1, N := 1, Stop := [], MaxTokens := 10,
                PresencePenalty := 0, FrequencyPenalty := 0,
                Model := { Name := "gpt-4", MaxTokens := 100 } },
    Messages := [{ Role := "system", Content := "sys", Tokens := 3 }] }

/-- Concrete environment for the C1 witness: the chat exists and the
provider stream emits three deltas. -/
def envC1 : Env :=
  { FindChatById := fun _ => Except.ok chatW
    CreateChatErr := none
    SaveChatErr := none
    CountTokens := fun _ s => some s.length
    NewChatID := "n1"
    OpenStreamErr := none
    StreamEvents := [StreamEvent.delta ("Hi"), StreamEvent.delta (" there"),
                     StreamEvent.delta ("!")] }

/-- Concrete input for the C1 witness. -/
def inW : ChatCompletionInputDTO :=
  { ChatID := "c1", UserID := "u1", UserMessage := "Hello", Config := cfgW }

/-- Witness for C1 at a concrete three-delta stream. -/
theorem C1_stream_snapshot_prefixes_witness :
    (Execute envC1 inW).2.Sunk = specSnapshots ("c1") ("u1") ["Hi", " there", "!"] :=
  C1_stream_snapshot_prefixes envC1 inW chatW 5 ["Hi", " there", "!"]
    rfl rfl (by decide) rfl rfl

/-- Appending a message adds its token count to the chat total. -/
theorem TotalTokens_append (c : Chat) (m : Message) :
    Chat.TotalTokens { c with Messages := c.Messages ++ [m] } =
      c.TotalTokens + m.Tokens := by
  simp [Chat.TotalTokens]

/-- Reduction of the finalize phase when the assistant message
tokenizes, fits the budget and the save succeeds. -/
theorem finalize_ok (env : Env) (c : Chat) (full : String) (ta : Nat)
    (htokA : env.CountTokens c.Config.Model full = some ta)
    (hbudA : c.TotalTokens + ta ≤ c.Config.Model.MaxTokens)
    (hsave : env.SaveChatErr = none) :
    finalize env c full =
      (Except.ok { ChatID := c.ID, UserID := c.UserID, Content := full },
       [{ c with Messages := c.Messages ++
           [{ Role := "assistant", Content := full, Tokens := ta }] }]) := by
  have h2 : c.AddMessage { Role := "assistant", Content := full, Tokens := ta } =
      Except.ok ({ c with Messages := c.Messages ++
        [{ Role := "assistant", Content := full, Tokens := ta }] }) := by
    unfold Chat.AddMessage
    rw [if_pos hbudA]
  unfold finalize NewMessage
  rw [htokA]
  simp only [h2, hsave]

/-- Reduction of the after-load phase on a fully successful turn. -/
theorem afterLoad_success
    (env : Env) (input : ChatCompletionInputDTO) (chat : Chat)
    (tu ta : Nat) (texts : List String)
    (htokU : env.CountTokens chat.Config.Model input.UserMessage = some tu)
    (hbudU : chat.TotalTokens + tu ≤ chat.Config.Model.MaxTokens)
    (hopen : env.OpenStreamErr = none)
    (hstream : env.StreamEvents = texts.map StreamEvent.delta)
    (htokA : env.CountTokens chat.Config.Model (concatStrings texts) = some ta)
    (hbudA : chat.TotalTokens + tu + ta ≤ chat.Config.Model.MaxTokens)
    (hsave : env.SaveChatErr = none) :
    afterLoad env input chat =
      (Except.ok { ChatID := chat.ID, UserID := chat.UserID,
                   Content := concatStrings texts },
       { Created := []
         Requests := [buildRequest
           { chat with Messages := chat.Messages ++
               [{ Role := "user", Content := input.UserMessage, Tokens := tu }] }]
         Sunk := specSnapshots chat.ID chat.UserID texts
         Saved := [{ chat with Messages := chat.Messages ++
             [{ Role := "user", Content := input.UserMessage, Tokens := tu },
              { Role := "assistant", Content := concatStrings texts, Tokens := ta }] }] }) := by
  rw [afterLoad_stream env input chat tu htokU hbudU hopen, hstream, runStream_deltas]
  have hfin := finalize_ok env
    { chat with Messages := chat.Messages ++
        [{ Role := "user", Content := input.UserMessage, Tokens := tu }] }
    (concatStrings texts) ta (by simpa using htokA)
    (by simpa [TotalTokens_append, Nat.add_assoc] using hbudA) hsave
  simp only [String.empty_append, hfin, prefixSnapshots_empty_eq_spec]
  simp [emptyTrace, List.append_assoc]

/-- Last snapshot of the specified snapshot sequence of a nonempty
delta list: the concatenation of all delta texts. -/
theorem specSnapshots_getLast (cid uid : String) (texts : List String)
    (h : texts ≠ []) :
    (specSnapshots cid uid texts).getLast? =
      some { ChatID := cid, UserID := uid, Content := concatStrings texts } := by
  obtain ⟨k, hk⟩ : ∃ k, texts.length = k + 1 := by
    cases texts with
    | nil => exact absurd rfl h
    | cons a l => exact ⟨l.length, rfl⟩
  unfold specSnapshots
  rw [hk, List.range_succ, List.map_append]
  simp only [List.map_cons, List.map_nil, List.getLast?_concat]
  rw [← hk, List.take_length]

/-- C6: after a successful turn on an existing chat, the chat passed to
SaveChat is the previously persisted chat with exactly two messages
appended at the end — the user message then the assistant message, in
that order — and no prior message modified or removed. -/
theorem C6_saved_appends_user_then_assistant
    (env : Env) (input : ChatCompletionInputDTO) (chat : Chat)
    (tu ta : Nat) (texts : List String)
    (hfind : env.FindChatById input.ChatID = Except.ok chat)
    (htokU : env.CountTokens chat.Config.Model input.UserMessage = some tu)
    (hbudU : chat.TotalTokens + tu ≤ chat.Config.Model.MaxTokens)
    (hopen : env.OpenStreamErr = none)
    (hstream : env.StreamEvents = texts.map StreamEvent.delta)
    (htokA : env.CountTokens chat.Config.Model (concatStrings texts) = some ta)
    (hbudA : chat.TotalTokens + tu + ta ≤ chat.Config.Model.MaxTokens)
    (hsave : env.SaveChatErr = none) :
    (Execute env input).2.Saved =
      [{ chat with Messages := chat.Messages ++
          [{ Role := "user", Content := input.UserMessage, Tokens := tu },
           { Role := "assistant", Content := concatStrings texts, Tokens := ta }] }] := by
  rw [Execute_found env input chat hfind,
    afterLoad_success env input chat tu ta texts htokU hbudU hopen hstream htokA hbudA hsave]

/-- Concrete environment for the C6 witness. -/
def envC6 : Env :=
  { FindChatById := fun _ => Except.ok chatW
    CreateChatErr := none
    SaveChatErr := none
    CountTokens := fun _ s => some s.length
    NewChatID := "n1"
    OpenStreamErr := none
    StreamEvents := [StreamEvent.delta ("Hi"), StreamEvent.delta (" there")] }

/-- Witness for C6 at a concrete two-delta stream. -/
theorem C6_saved_appends_user_then_assistant_witness :
    (Execute envC6 inW).2.Saved =
      [{ chatW with Messages := chatW.Messages ++
          [{ Role := "user", Content := inW.UserMessage, Tokens := 5 },
           { Role := "assistant", Content := concatStrings ["Hi", " there"], Tokens := 8 }] }] :=
  C6_saved_appends_user_then_assistant envC6 inW chatW 5 8 ["Hi", " there"]
    rfl rfl (by decide) rfl rfl rfl (by decide) rfl

/-- C8: a successful turn returns the output carrying the chat and
user identifiers and the concatenation of all delta texts, and when at
least one delta arrived this equals the last snapshot published to the
sink. -/
theorem C8_success_output
    (env : Env) (input : ChatCompletionInputDTO) (chat : Chat)
    (tu ta : Nat) (texts : List String)
    (hfind : env.FindChatById input.ChatID = Except.ok chat)
    (htokU : env.CountTokens chat.Config.Model input.UserMessage = some tu)
    (hbudU : chat.TotalTokens + tu ≤ chat.Config.Model.MaxTokens)
    (hopen : env.OpenStreamErr = none)
    (hstream : env.StreamEvents = texts.map StreamEvent.delta)
    (htokA : env.CountTokens chat.Config.Model (concatStrings texts) = some ta)
    (hbudA : chat.TotalTokens + tu + ta ≤ chat.Config.Model.MaxTokens)
    (hsave : env.SaveChatErr = none) :
    (Execute env input).1 =
      Except.ok { ChatID := chat.ID, UserID := chat.UserID,
                  Content := concatStrings texts } ∧
    (texts ≠ [] →
      (Execute env input).2.Sunk.getLast? =
        some { ChatID := chat.ID, UserID := chat.UserID,
               Content := concatStrings texts }) := by
  rw [Execute_found env input chat hfind,
    afterLoad_success env input chat tu ta texts htokU hbudU hopen hstream htokA hbudA hsave]
  exact ⟨rfl, fun hne => specSnapshots_getLast chat.ID chat.UserID texts hne⟩

/-- Concrete environment for the C8 witness. -/
def envC8 : Env :=
  { FindChatById := fun _ => Except.ok chatW
    CreateChatErr := none
    SaveChatErr := none
    CountTokens := fun _ s => some s.length
    NewChatID := "n1"
    OpenStreamErr := none
    StreamEvents := [StreamEvent.delta ("Hel"), StreamEvent.delta ("lo!")] }

/-- Witness for C8 at a concrete two-delta stream. -/
theorem C8_success_output_witness :
    (Execute envC8 inW).1 =
      Except.ok { ChatID := chatW.ID, UserID := chatW.UserID,
                  Content := concatStrings ["Hel", "lo!"] } ∧
    (Execute envC8 inW).2.Sunk.getLast? =
      some { ChatID := chatW.ID, UserID := chatW.UserID,
             Content := concatStrings ["Hel", "lo!"] } :=
  ⟨(C8_success_output envC8 inW chatW 5 6 ["Hel", "lo!"]
      rfl rfl (by decide) rfl rfl rfl (by decide) rfl).1,
   (C8_success_output envC8 inW chatW 5 6 ["Hel", "lo!"]
      rfl rfl (by decide) rfl rfl rfl (by decide) rfl).2 (by decide)⟩

/-- C9: when the provider stream ends before yielding any delta,
Execute publishes nothing to the sink, still appends an assistant
message with empty content and saves the chat, and returns a
successful output with empty content. -/
theorem C9_empty_stream_saves_empty_assistant
    (env : Env) (input : ChatCompletionInputDTO) (chat : Chat) (tu ta : Nat)
    (hfind : env.FindChatById input.ChatID = Except.ok chat)
    (htokU : env.CountTokens chat.Config.Model input.UserMessage = some tu)
    (hbudU : chat.TotalTokens + tu ≤ chat.Config.Model.MaxTokens)
    (hopen : env.OpenStreamErr = none)
    (hstream : env.StreamEvents = [])
    (htokA : env.CountTokens chat.Config.Model ("") = some ta)
    (hbudA : chat.TotalTokens + tu + ta ≤ chat.Config.Model.MaxTokens)
    (hsave : env.SaveChatErr = none) :
    (Execute env input).2.Sunk = [] ∧
    (Execute env input).2.Saved =
      [{ chat with Messages := chat.Messages ++
          [{ Role := "user", Content := input.UserMessage, Tokens := tu },
           { Role := "assistant", Content := ("" : String), Tokens := ta }] }] ∧
    (Execute env input).1 =
      Except.ok { ChatID := chat.ID, UserID := chat.UserID,
                  Content := ("" : String) } := by
  rw [Execute_found env input chat hfind,
    afterLoad_success env input chat tu ta [] htokU hbudU hopen hstream htokA hbudA hsave]
  exact ⟨rfl, rfl, rfl⟩

/-- Concrete environment for the C9 witness: the stream ends at once. -/
def envC9 : Env :=
  { FindChatById := fun _ => Except.ok chatW
    CreateChatErr := none
    SaveChatErr := none
    CountTokens := fun _ s => some s.length
    NewChatID := "n1"
    OpenStreamErr := none
    StreamEvents := [] }

/-- Witness for C9 at a concrete empty stream. -/
theorem C9_empty_stream_saves_empty_assistant_witness :
    (Execute envC9 inW).2.Sunk = [] ∧
    (Execute envC9 inW).2.Saved =
      [{ chatW with Messages := chatW.Messages ++
          [{ Role := "user", Content := inW.UserMessage, Tokens := 5 },
           { Role := "assistant", Content := ("" : String), Tokens := 0 }] }] ∧
    (Execute envC9 inW).1 =
      Except.ok { ChatID := chatW.ID, UserID := chatW.UserID,
                  Content := ("" : String) } :=
  C9_empty_stream_saves_empty_assistant envC9 inW chatW 5 0
    rfl rfl (by decide) rfl rfl rfl (by decide) rfl

/-- The chat config that createNewChat builds from the input DTO.  The
Go composite literal omits MaxTokens, so it holds Go's zero value 0. -/
def freshConfig (input : ChatCompletionInputDTO) : ChatConfig :=
  { Temperature := input.Config.Temperature
    TopP := input.Config.TopP
    N := input.Config.N
    Stop := input.Config.Stop
    MaxTokens := 0
    PresencePenalty := input.Config.PresencePenalty
    FrequencyPenalty := input.Config.FrequencyPenalty
    Model := NewModel input.Config.Model input.Config.ModelMaxTokens }

/-- The chat createNewChat produces when the system message carries
ts0 tokens: the generated identifier, the caller's user identifier,
the fresh config and the single system message. -/
def freshChat (env : Env) (input : ChatCompletionInputDTO) (ts0 : Nat) : Chat :=
  { ID := env.NewChatID
    UserID := input.UserID
    Config := freshConfig input
    Messages := [{ Role := "system", Content := input.Config.InitialSystemMessage,
                   Tokens := ts0 }] }

/-- Reduction of the load-or-create phase when the fetch fails with
the matched text and creation and persistence succeed. -/
theorem loadOrCreate_notFound (env : Env) (input : ChatCompletionInputDTO)
    (e : StoreErr) (ts0 : Nat)
    (hfind : env.FindChatById input.ChatID = Except.error e)
    (htext : e.Text = "Chat not found")
    (htokS : env.CountTokens (NewModel input.Config.Model input.Config.ModelMaxTokens)
        input.Config.InitialSystemMessage = some ts0)
    (hname : input.Config.Model ≠ "")
    (hcreate : env.CreateChatErr = none) :
    loadOrCreate env input =
      (Except.ok (freshChat env input ts0), [freshChat env input ts0]) := by
  unfold loadOrCreate createNewChat NewMessage NewChat
  rw [hfind]
  simp only [NewModel] at htokS
  simp [htext, htokS, hcreate, hname, freshChat, freshConfig, NewModel]

/-- Reduction of Execute on the not-found path. -/
theorem Execute_notFound (env : Env) (input : ChatCompletionInputDTO)
    (e : StoreErr) (ts0 : Nat)
    (hfind : env.FindChatById input.ChatID = Except.error e)
    (htext : e.Text = "Chat not found")
    (htokS : env.CountTokens (NewModel input.Config.Model input.Config.ModelMaxTokens)
        input.Config.InitialSystemMessage = some ts0)
    (hname : input.Config.Model ≠ "")
    (hcreate : env.CreateChatErr = none) :
    Execute env input =
      ((afterLoad env input (freshChat env input ts0)).1,
       { (afterLoad env input (freshChat env input ts0)).2 with
           Created := [freshChat env input ts0] }) := by
  unfold Execute
  rw [loadOrCreate_notFound env input e ts0 hfind htext htokS hname hcreate]

/-- C5: for a chat identifier the store does not know, a successful
turn performs exactly one CreateChat call whose chat holds exactly the
system message built from the initial system prompt, and later exactly
one SaveChat call whose chat holds exactly three messages in order:
system, the user message, the assistant message. -/
theorem C5_new_chat_create_then_save
    (env : Env) (input : ChatCompletionInputDTO) (e : StoreErr)
    (ts0 tu ta : Nat) (texts : List String)
    (hfind : env.FindChatById input.ChatID = Except.error e)
    (htext : e.Text = "Chat not found")
    (htokS : env.CountTokens (NewModel input.Config.Model input.Config.ModelMaxTokens)
        input.Config.InitialSystemMessage = some ts0)
    (hname : input.Config.Model ≠ "")
    (hcreate : env.CreateChatErr = none)
    (htokU : env.CountTokens (NewModel input.Config.Model input.Config.ModelMaxTokens)
        input.UserMessage = some tu)
    (hbudU : ts0 + tu ≤ input.Config.ModelMaxTokens)
    (hopen : env.OpenStreamErr = none)
    (hstream : env.StreamEvents = texts.map StreamEvent.delta)
    (htokA : env.CountTokens (NewModel input.Config.Model input.Config.ModelMaxTokens)
        (concatStrings texts) = some ta)
    (hbudA : ts0 + tu + ta ≤ input.Config.ModelMaxTokens)
    (hsave : env.SaveChatErr = none) :
    (Execute env input).2.Created = [freshChat env input ts0] ∧
    (freshChat env input ts0).Messages =
      [{ Role := "system", Content := input.Config.InitialSystemMessage, Tokens := ts0 }] ∧
    (Execute env input).2.Saved =
      [{ freshChat env input ts0 with Messages :=
          [{ Role := "system", Content := input.Config.InitialSystemMessage, Tokens := ts0 },
           { Role := "user", Content := input.UserMessage, Tokens := tu },
           { Role := "assistant", Content := concatStrings texts, Tokens := ta }] }] := by
  have hA := afterLoad_success env input (freshChat env input ts0) tu ta texts
    (by simpa [freshChat, freshConfig, NewModel] using htokU)
    (by simpa [freshChat, freshConfig, NewModel, Chat.TotalTokens] using hbudU)
    hopen hstream
    (by simpa [freshChat, freshConfig, NewModel] using htokA)
    (by simpa [freshChat, freshConfig, NewModel, Chat.TotalTokens] using hbudA)
    hsave
  rw [Execute_notFound env input e ts0 hfind htext htokS hname hcreate, hA]
  refine ⟨rfl, rfl, ?_⟩
  simp [freshChat]

/-- Concrete environment for the C5 witness: the chat is unknown to
the store and the stream emits one delta. -/
def envC5 : Env :=
  { FindChatById := fun _ =>
      Except.error { Kind := StoreErrKind.notFound, Text := "Chat not found" }
    CreateChatErr := none
    SaveChatErr := none
    CountTokens := fun _ s => some s.length
    NewChatID := "new-1"
    OpenStreamErr := none
    StreamEvents := [StreamEvent.delta ("Hi!")] }

/-- Witness for C5 at a concrete fresh chat. -/
theorem C5_new_chat_create_then_save_witness :
    (Execute envC5 inW).2.Created = [freshChat envC5 inW 27] ∧
    (freshChat envC5 inW 27).Messages =
      [{ Role := "system", Content := inW.Config.InitialSystemMessage, Tokens := 27 }] ∧
    (Execute envC5 inW).2.Saved =
      [{ freshChat envC5 inW 27 with Messages :=
          [{ Role := "system", Content := inW.Config.InitialSystemMessage, Tokens := 27 },
           { Role := "user", Content := inW.UserMessage, Tokens := 5 },
           { Role := "assistant", Content := concatStrings ["Hi!"], Tokens := 3 }] }] :=
  C5_new_chat_create_then_save envC5 inW
    { Kind := StoreErrKind.notFound, Text := "Chat not found" } 27 5 3 ["Hi!"]
    rfl rfl rfl (by decide) rfl rfl (by decide) rfl rfl rfl (by decide) rfl

/-- C7 (amended): for a newly created chat the provider request
carries the chat's full ordered history (system then user message) and
the Model name, Temperature, TopP, PresencePenalty, FrequencyPenalty
and Stop sequences equal to the caller-supplied config fields, but the
request's MaxTokens is 0 rather than the caller-supplied output cap
(createNewChat omits MaxTokens from the chat config) and the request's
N is always 0 (the request literal never sets it). -/
theorem C7_request_fields
    (env : Env) (input : ChatCompletionInputDTO) (e : StoreErr) (ts0 tu : Nat)
    (hfind : env.FindChatById input.ChatID = Except.error e)
    (htext : e.Text = "Chat not found")
    (htokS : env.CountTokens (NewModel input.Config.Model input.Config.ModelMaxTokens)
        input.Config.InitialSystemMessage = some ts0)
    (hname : input.Config.Model ≠ "")
    (hcreate : env.CreateChatErr = none)
    (htokU : env.CountTokens (NewModel input.Config.Model input.Config.ModelMaxTokens)
        input.UserMessage = some tu)
    (hbudU : ts0 + tu ≤ input.Config.ModelMaxTokens)
    (hopen : env.OpenStreamErr = none) :
    (Execute env input).2.Requests =
      [{ Model := input.Config.Model
         Messages := [{ Role := "system", Content := input.Config.InitialSystemMessage },
                      { Role := "user", Content := input.UserMessage }]
         MaxTokens := 0
         Temperature := input.Config.Temperature
         TopP := input.Config.TopP
         N := 0
         PresencePenalty := input.Config.PresencePenalty
         FrequencyPenalty := input.Config.FrequencyPenalty
         Stop := input.Config.Stop
         Stream := true }] := by
  rw [Execute_notFound env input e ts0 hfind htext htokS hname hcreate,
    afterLoad_stream env input (freshChat env input ts0) tu
      (by simpa [freshChat, freshConfig, NewModel] using htokU)
      (by simpa [freshChat, freshConfig, NewModel, Chat.TotalTokens] using hbudU)
      hopen]
  rcases hr : runStream (freshChat env input ts0).ID (freshChat env input ts0).UserID
      env.StreamEvents ("") with ⟨pub, res⟩
  cases res <;> simp [buildRequest, freshChat, freshConfig, NewModel]

/-- Concrete input for C7: the caller asks for a nonzero output cap
and a nonzero sample count. -/
def inC7 : ChatCompletionInputDTO :=
  { ChatID := "ignored", UserID := "u7", UserMessage := "Hey",
    Config := { cfgW with MaxTokens := 7, N := 3 } }

/-- Concrete environment for C7: the chat is unknown to the store. -/
def envC7 : Env :=
  { FindChatById := fun _ =>
      Except.error { Kind := StoreErrKind.notFound, Text := "Chat not found" }
    CreateChatErr := none
    SaveChatErr := none
    CountTokens := fun _ s => some s.length
    NewChatID := "new-7"
    OpenStreamErr := none
    StreamEvents := [StreamEvent.delta ("Yo")] }

/-- Witness for the amended C7 at a concrete fresh chat. -/
theorem C7_request_fields_witness :
    (Execute envC7 inC7).2.Requests =
      [{ Model := inC7.Config.Model
         Messages := [{ Role := "system", Content := inC7.Config.InitialSystemMessage },
                      { Role := "user", Content := inC7.UserMessage }]
         MaxTokens := 0
         Temperature := inC7.Config.Temperature
         TopP := inC7.Config.TopP
         N := 0
         PresencePenalty := inC7.Config.PresencePenalty
         FrequencyPenalty := inC7.Config.FrequencyPenalty
         Stop := inC7.Config.Stop
         Stream := true }] :=
  C7_request_fields envC7 inC7
    { Kind := StoreErrKind.notFound, Text := "Chat not found" } 27 3
    rfl rfl rfl (by decide) rfl rfl (by decide) rfl

/-- Counterexample for C7 as stated: with caller-supplied MaxTokens 7
and N 3, the request built for the newly created chat carries
MaxTokens 0 and N 0. -/
theorem C7_counterexample :
    (Execute envC7 inC7).2.Requests.map ProviderRequest.MaxTokens = [0] ∧
    inC7.Config.MaxTokens = 7 ∧
    (Execute envC7 inC7).2.Requests.map ProviderRequest.N = [0] ∧
    inC7.Config.N = 3 :=
  ⟨rfl, rfl, rfl, rfl⟩

/-- C10: when the store reports the chat as not found for both
identifiers, the caller-supplied chat identifier has no influence on
any observable output — two Execute runs identical except for the
input chat identifier produce identical results and identical traces
(created chats, requests, snapshots, saved chats). -/
theorem C10_chatid_noninterference
    (env : Env) (cid1 cid2 uid um : String)
    (cfg : ChatCompletionConfigInputDTO) (e1 e2 : StoreErr)
    (h1 : env.FindChatById cid1 = Except.error e1)
    (ht1 : e1.Text = "Chat not found")
    (h2 : env.FindChatById cid2 = Except.error e2)
    (ht2 : e2.Text = "Chat not found") :
    Execute env { ChatID := cid1, UserID := uid, UserMessage := um, Config := cfg } =
      Execute env { ChatID := cid2, UserID := uid, UserMessage := um, Config := cfg } := by
  unfold Execute loadOrCreate
  simp only [h1, h2, ht1, ht2, if_true]
  rfl

/-- Concrete environment for the C10 witness. -/
def envC10 : Env :=
  { FindChatById := fun _ =>
      Except.error { Kind := StoreErrKind.notFound, Text := "Chat not found" }
    CreateChatErr := none
    SaveChatErr := none
    CountTokens := fun _ s => some s.length
    NewChatID := "new-10"
    OpenStreamErr := none
    StreamEvents := [StreamEvent.delta ("Aha")] }

/-- Witness for C10 at two concrete distinct chat identifiers. -/
theorem C10_chatid_noninterference_witness :
    Execute envC10 { ChatID := "id-A", UserID := "u1", UserMessage := "Hello", Config := cfgW } =
      Execute envC10 { ChatID := "id-B", UserID := "u1", UserMessage := "Hello", Config := cfgW } :=
  C10_chatid_noninterference envC10 ("id-A") ("id-B") ("u1") ("Hello") cfgW
    { Kind := StoreErrKind.notFound, Text := "Chat not found" }
    { Kind := StoreErrKind.notFound, Text := "Chat not found" }
    rfl rfl rfl rfl

/-- C2 (amended): when the provider stream fails after k deltas on a
turn over an existing chat, Execute returns the wrapped stream error,
the sink has received exactly k snapshots, SaveChat is never called,
no CreateChat occurred, and replaying the turn's store writes leaves
every store unchanged.  (When the chat had to be created this turn,
the single CreateChat performed before streaming has already written
the fresh chat with its system message — see the counterexample — so
the store-unchanged conjunct holds only for pre-existing chats.) -/
theorem C2_midstream_error_no_commit
    (env : Env) (input : ChatCompletionInputDTO) (chat : Chat) (tu : Nat)
    (texts : List String) (m : String) (rest : List StreamEvent)
    (hfind : env.FindChatById input.ChatID = Except.ok chat)
    (htokU : env.CountTokens chat.Config.Model input.UserMessage = some tu)
    (hbudU : chat.TotalTokens + tu ≤ chat.Config.Model.MaxTokens)
    (hopen : env.OpenStreamErr = none)
    (hstream : env.StreamEvents =
      texts.map StreamEvent.delta ++ StreamEvent.errEvent m :: rest) :
    (Execute env input).1 = Except.error ("Error stream response: " ++ m) ∧
    (Execute env input).2.Sunk.length = texts.length ∧
    (Execute env input).2.Saved = [] ∧
    (Execute env input).2.Created = [] ∧
    ∀ store : String → Option Chat, applyWrites store (Execute env input).2 = store := by
  rw [Execute_found env input chat hfind,
    afterLoad_stream env input chat tu htokU hbudU hopen, hstream, runStream_midErr]
  refine ⟨rfl, ?_, rfl, rfl, ?_⟩
  · exact prefixSnapshots_length chat.ID chat.UserID ("") texts
  · intro store
    funext id
    simp [applyWrites, emptyTrace]

/-- Concrete environment for the C2 witness: the chat exists and the
stream errors after one delta. -/
def envC2w : Env :=
  { FindChatById := fun _ => Except.ok chatW
    CreateChatErr := none
    SaveChatErr := none
    CountTokens := fun _ s => some s.length
    NewChatID := "n1"
    OpenStreamErr := none
    StreamEvents := [StreamEvent.delta ("Hi"), StreamEvent.errEvent ("conn reset")] }

/-- Witness for the amended C2 at a concrete one-delta-then-error
stream over an existing chat. -/
theorem C2_midstream_error_no_commit_witness :
    (Execute envC2w inW).1 = Except.error ("Error stream response: " ++ "conn reset") ∧
    (Execute envC2w inW).2.Sunk.length = (["Hi"] : List String).length ∧
    (Execute envC2w inW).2.Saved = [] ∧
    (Execute envC2w inW).2.Created = [] ∧
    applyWrites emptyStore (Execute envC2w inW).2 = emptyStore :=
  ⟨(C2_midstream_error_no_commit envC2w inW chatW 5 ["Hi"] ("conn reset") []
      rfl rfl (by decide) rfl rfl).1,
   (C2_midstream_error_no_commit envC2w inW chatW 5 ["Hi"] ("conn reset") []
      rfl rfl (by decide) rfl rfl).2.1,
   (C2_midstream_error_no_commit envC2w inW chatW 5 ["Hi"] ("conn reset") []
      rfl rfl (by decide) rfl rfl).2.2.1,
   (C2_midstream_error_no_commit envC2w inW chatW 5 ["Hi"] ("conn reset") []
      rfl rfl (by decide) rfl rfl).2.2.2.1,
   (C2_midstream_error_no_commit envC2w inW chatW 5 ["Hi"] ("conn reset") []
      rfl rfl (by decide) rfl rfl).2.2.2.2 emptyStore⟩

/-- Concrete environment for the C2 counterexample: the chat is
unknown to the store and the stream errors after one delta. -/
def envC2 : Env :=
  { FindChatById := fun _ =>
      Except.error { Kind := StoreErrKind.notFound, Text := "Chat not found" }
    CreateChatErr := none
    SaveChatErr := none
    CountTokens := fun _ s => some s.length
    NewChatID := "fresh-1"
    OpenStreamErr := none
    StreamEvents := [StreamEvent.delta ("Hi"), StreamEvent.errEvent ("boom")] }

/-- Counterexample for C2 as stated: on the not-found path, a
mid-stream provider error after one delta leaves the store changed for
the turn's chat — CreateChat already persisted the fresh chat — even
though Execute fails, the sink received exactly one snapshot and
SaveChat was never called. -/
theorem C2_counterexample :
    (Execute envC2 inW).1 = Except.error ("Error stream response: boom") ∧
    (Execute envC2 inW).2.Sunk.length = 1 ∧
    (Execute envC2 inW).2.Saved = [] ∧
    emptyStore ("fresh-1") = none ∧
    (applyWrites emptyStore (Execute envC2 inW).2 ("fresh-1")).isSome = true :=
  ⟨rfl, rfl, rfl, rfl, rfl⟩

/-- Concrete environment for C3: the store fails with a non-NotFound
error whose text happens to equal the literal the source compares
against. -/
def envC3 : Env :=
  { FindChatById := fun _ =>
      Except.error { Kind := StoreErrKind.store, Text := "Chat not found" }
    CreateChatErr := none
    SaveChatErr := none
    CountTokens := fun _ s => some s.length
    NewChatID := "new-3"
    OpenStreamErr := none
    StreamEvents := [StreamEvent.delta ("Hi")] }

/-- C3 evaluated at the failing input: the load phase discriminates by
string comparison of the error text, so a store error that is not of
the NotFound kind but carries the text the source compares against
still triggers chat creation. -/
theorem C3_string_match_triggers_creation :
    envC3.FindChatById inW.ChatID =
      Except.error { Kind := StoreErrKind.store, Text := "Chat not found" } ∧
    (Execute envC3 inW).2.Created.length = 1 :=
  ⟨rfl, rfl⟩

/-- Concrete input for C4. -/
def inC4 : ChatCompletionInputDTO :=
  { ChatID := "c4", UserID := "u4", UserMessage := "Howdy", Config := cfgW }

/-- Concrete environment for C4: a non-NotFound store failure with the
matched text, then a fully successful turn. -/
def envC4 : Env :=
  { FindChatById := fun _ =>
      Except.error { Kind := StoreErrKind.store, Text := "Chat not found" }
    CreateChatErr := none
    SaveChatErr := none
    CountTokens := fun _ s => some s.length
    NewChatID := "new-4"
    OpenStreamErr := none
    StreamEvents := [StreamEvent.delta ("Hi")] }

/-- C4 evaluated at the failing input: on a non-NotFound store error
whose text equals the compared literal, Execute does not return the
fetch error — it creates a chat, saves it, and returns success. -/
theorem C4_storeerror_with_matching_text_creates_and_saves :
    envC4.FindChatById inC4.ChatID =
      Except.error { Kind := StoreErrKind.store, Text := "Chat not found" } ∧
    (Execute envC4 inC4).2.Created.length = 1 ∧
    (Execute envC4 inC4).2.Saved.length = 1 ∧
    (Execute envC4 inC4).1 =
      Except.ok { ChatID := "new-4", UserID := "u4", Content := "Hi" } :=
  ⟨rfl, rfl, rfl, rfl⟩
